import Mathlib

/-!
# Verification of the QCoDeS command-protocol layer

Shallow embedding of two instrument drivers:

* `qcodes/instrument_drivers/Keysight/keysightb1500/KeysightB1520A.py`
  (B1520A CMU module: response-field regex, capacitance query parsing,
  correction lifecycle, phase compensation, channel addressing), and
* `qcodes/instrument_drivers/Galil/dmc_41x3.py`
  (GalilInstrument transport: command termination, timeout setter).

Strings are modelled as `List Char`; Python floats as `ℚ`; fallible code
as `Option`/`Except`-shaped results.  Collaborator code that lives in the
repository but outside the provided sources (the `MessageBuilder`, the
`constants` enumerations, `Parameter.set_to`, the device-side correction
lifecycle) is modelled from the spec, with a doc comment saying so on each
such definition.
-/

namespace QcodesSpec

/-! ## Response-field pattern

Embedding of the compiled regex at the top of `KeysightB1520A.py`:

    _pattern = re.compile(
        r"((?P<status>\w)(?P<chnr>\w)(?P<dtype>\w))?"
        r"(?P<value>[+-]\d{1,3}\.\d{3,6}E[+-]\d{2})")

The responses are ASCII (spec §6), so `\w` is modelled on the ASCII range
as `[A-Za-z0-9_]`.  The regex backtracking is deterministic here: the
follow-set of each greedy `\d{m,n}` quantifier (`.`, `E`, end) is disjoint
from `\d`, so the greedy match either succeeds with the maximal digit run
or fails outright; and when the optional three-`\w` prefix matches, the
payload cannot also start at the same position (a payload starts with
`+`/`-`, which is not `\w`).  The functions below implement exactly that
deterministic reading.
-/

/-- Python `\w` restricted to ASCII: letters, digits, underscore. -/
def isWordChar (c : Char) : Bool :=
  c.isAlpha || c.isDigit || c == '_'

/-- Python `[+-]`. -/
def isSign (c : Char) : Bool :=
  c == '+' || c == '-'

/-- One decoded response field: the optional status/channel/data-type
prefix captures and the numeric payload, as the named groups of
`_pattern`. -/
structure Field where
  status : Option Char
  chnr : Option Char
  dtype : Option Char
  value : List Char
  deriving Repr, DecidableEq

/-- Match `(?P<value>[+-]\d{1,3}\.\d{3,6}E[+-]\d{2})` at the head of `s`;
on success return the matched characters and the remaining suffix.  Each
greedy `\d{m,n}` is realized as the maximal leading digit run (`takeWhile`)
with its length checked against the bounds: since the character that must
follow (`.`, `E`) is not a digit, the regex engine's backtracking accepts
exactly the maximal run or nothing. -/
def matchValue (s : List Char) : Option (List Char × List Char) :=
  match s with
  | [] => none
  | c :: rest =>
    if isSign c = true then
      let d1 := rest.takeWhile Char.isDigit
      let r1 := rest.dropWhile Char.isDigit
      if 1 ≤ d1.length ∧ d1.length ≤ 3 then
        match r1 with
        | x :: r2 =>
          if x = '.' then
            let d2 := r2.takeWhile Char.isDigit
            let r3 := r2.dropWhile Char.isDigit
            if 3 ≤ d2.length ∧ d2.length ≤ 6 then
              match r3 with
              | y :: e :: a :: b :: r4 =>
                if y = 'E' ∧ (isSign e = true ∧ (a.isDigit = true ∧ b.isDigit = true)) then
                  some (c :: d1 ++ x :: d2 ++ y :: e :: a :: b :: [], r4)
                else none
              | _ => none
            else none
          else none
        | [] => none
      else none
    else none

/-- `_pattern` at the head of `s` with the optional prefix group empty:
the whole match is the payload. -/
def matchNoPrefix (s : List Char) : Option (Field × List Char) :=
  match matchValue s with
  | some (v, r) => some (⟨none, none, none, v⟩, r)
  | none => none

/-- Try `_pattern` at the head of `s`: first with the optional
three-character prefix (the regex engine tries the greedy optional group
first), then without it. -/
def matchFieldAt (s : List Char) : Option (Field × List Char) :=
  match s with
  | a :: b :: c :: rest =>
    if isWordChar a ∧ isWordChar b ∧ isWordChar c then
      match matchValue rest with
      | some (v, r) => some (⟨some a, some b, some c, v⟩, r)
      | none => matchNoPrefix (a :: b :: c :: rest)
    else
      matchNoPrefix (a :: b :: c :: rest)
  | s => matchNoPrefix s

/-- Fuel-indexed scan implementing `re.finditer(_pattern, ·)`: repeatedly
try a match at the current position; on success emit the field and resume
after the match, otherwise advance one character.  Structural recursion on
the fuel keeps the definition kernel-reducible; `findIterAux_stable` below
shows any fuel of at least the string length computes the true fixpoint. -/
def findIterAux : Nat → List Char → List Field
  | 0, _ => []
  | _ + 1, [] => []
  | fuel + 1, s@(_ :: rest) =>
    match matchFieldAt s with
    | some (f, r) => f :: findIterAux fuel r
    | none => findIterAux fuel rest

/-- All non-overlapping matches of `_pattern` in `s`, leftmost first:
`re.finditer(_pattern, s)`. -/
def findIter (s : List Char) : List Field :=
  findIterAux s.length s

/-- `_pattern.fullmatch s`: `s` is accepted as exactly one response field
(a match starting at position 0 that consumes the whole string). -/
def field_accepts (s : List Char) : Bool :=
  match matchFieldAt s with
  | some (_, []) => true
  | _ => false

/-- The payload group alone consumes the whole string. -/
def valueFullMatch (s : List Char) : Bool :=
  match matchValue s with
  | some (_, []) => true
  | _ => false

/-- The parsing step of `B1520A._get_capacitance` (KeysightB1520A.py lines
104–113): run `re.finditer(_pattern, response)`; unless exactly two fields
matched, with field 0 carrying data-type tag `'C'` and field 1 tag `'Y'`,
raise `ValueError("Result format not supported.")` (modelled as `none`);
otherwise return the two numeric payloads in positional order (the Python
code then applies `float` to each). -/
def get_capacitance_parse (response : List Char) :
    Option (List Char × List Char) :=
  match findIter response with
  | [p0, p1] =>
    if p0.dtype ≠ some 'C' ∨ p1.dtype ≠ some 'Y' then none
    else some (p0.value, p1.value)
  | _ => none

/-- The capacitance-query example response from the spec (§8). -/
def capacitanceExample : List Char :=
  "CH1C+001.234000E-03CH1Y+005.678000E-06".data

/-! ## The spec's wire-format shape, and its amended form

`specPayloadShape` transcribes the spec's §6 payload shape literally
(`<sign><3digits>.<3-6digits>E<sign><2digits>`, with *exactly three*
digits before the decimal point); it exists only to be compared against
the matcher taken from the source.  `amendedPayloadShape` is the same
shape with one to three digits before the decimal point — the amendment
the source's `\d{1,3}` forces. -/

/-- Modelled from the spec (§6): a full payload of exactly
`<sign><3digits>.<3-6digits>E<sign><2digits>` — a sign, a (maximal) run
of exactly three digits, the decimal point, a run of three to six digits,
`E`, a sign, and exactly two digits ending the string. -/
def specPayloadShape (s : List Char) : Bool :=
  match s with
  | c :: rest =>
    if isSign c = true then
      let d1 := rest.takeWhile Char.isDigit
      let r1 := rest.dropWhile Char.isDigit
      if d1.length = 3 then
        match r1 with
        | x :: r2 =>
          if x = '.' then
            let d2 := r2.takeWhile Char.isDigit
            let r3 := r2.dropWhile Char.isDigit
            if 3 ≤ d2.length ∧ d2.length ≤ 6 then
              match r3 with
              | [y, e, a, b] =>
                decide (y = 'E' ∧ (isSign e = true ∧
                  (a.isDigit = true ∧ b.isDigit = true)))
              | _ => false
            else false
          else false
        | [] => false
      else false
    else false
  | [] => false

/-- Modelled from the spec (§6), with exactly-three digits before the
decimal point amended to one-to-three (the amendment the source's
`\d{1,3}` forces): a full payload of
`<sign><1-3digits>.<3-6digits>E<sign><2digits>`. -/
def amendedPayloadShape (s : List Char) : Bool :=
  match s with
  | c :: rest =>
    if isSign c = true then
      let d1 := rest.takeWhile Char.isDigit
      let r1 := rest.dropWhile Char.isDigit
      if 1 ≤ d1.length ∧ d1.length ≤ 3 then
        match r1 with
        | x :: r2 =>
          if x = '.' then
            let d2 := r2.takeWhile Char.isDigit
            let r3 := r2.dropWhile Char.isDigit
            if 3 ≤ d2.length ∧ d2.length ≤ 6 then
              match r3 with
              | [y, e, a, b] =>
                decide (y = 'E' ∧ (isSign e = true ∧
                  (a.isDigit = true ∧ b.isDigit = true)))
              | _ => false
            else false
          else false
        | [] => false
      else false
    else false
  | [] => false

/-- Modelled from the spec (§6): one full response field — an optional
three-character status/channel/type prefix of word characters followed by
an amended-shape payload. -/
def amendedFieldShape (s : List Char) : Bool :=
  amendedPayloadShape s ||
    (match s with
     | a :: b :: c :: rest =>
       isWordChar a && isWordChar b && isWordChar c &&
         amendedPayloadShape rest
     | _ => false)

/-- Same as `amendedFieldShape` but with the spec's original
exactly-three-digit payload. -/
def specFieldShape (s : List Char) : Bool :=
  specPayloadShape s ||
    (match s with
     | a :: b :: c :: rest =>
       isWordChar a && isWordChar b && isWordChar c && specPayloadShape rest
     | _ => false)

/-! ## Channel addressing and command rendering (B1520A submodules) -/

/-- Modelled from the spec: `constants.ChNr` (in the repository but not
among the sources) wraps the slot number as the wire-level channel
identifier with the same integer value (spec §4.4, §6). -/
def ChNr (slot_nr : Nat) : Nat := slot_nr

/-- Modelled from the spec: `MessageBuilder` (in the repository but not
among the sources) renders a command as its mnemonic followed by
comma-separated arguments; channel arguments render as the integer
channel identifier, enumerated arguments by their integer code
(spec §4.1, §6). -/
def renderCmd (mnemonic : String) (args : List String) : String :=
  mnemonic ++ " " ++ String.intercalate "," args

/-- The `B1520A` module state established by `B1520A.__init__`:
`self.channels = (ChNr(slot_nr),)`.  Nothing in the driver ever reassigns
`channels`, so the tuple built here is fixed for the instance lifetime. -/
structure B1520AChannels where
  channels : List Nat
  deriving Repr, DecidableEq

/-- `B1520A.__init__` (line 41): `self.channels = (ChNr(slot_nr),)`. -/
def mkB1520A (slot_nr : Nat) : B1520AChannels :=
  ⟨[ChNr slot_nr]⟩

/-- The `FrequencyList` submodule: `__init__` stores the `chnum` argument
as `self._chnum`. -/
structure FrequencyListMod where
  chnum : Nat
  deriving Repr, DecidableEq

/-- `FrequencyList.__init__` (lines 330–332). -/
def mkFrequencyList (chnum : Nat) : FrequencyListMod :=
  ⟨chnum⟩

/-- The `Correction` submodule: `__init__` stores
`self._chnum = parent.channels[0]` and creates the nested
`FrequencyList(self, 'frequency_list', self._chnum)`. -/
structure CorrectionMod where
  chnum : Nat
  frequency_list : FrequencyListMod
  deriving Repr, DecidableEq

/-- `Correction.__init__` (lines 170–175).  `parent.channels[0]` is
modelled as `headD 0`; the parent constructor always builds a
one-element tuple, so the default is never taken. -/
def mkCorrection (parent : B1520AChannels) : CorrectionMod :=
  let ch := parent.channels.headD 0
  ⟨ch, mkFrequencyList ch⟩

/-- `Correction.enable`: `MessageBuilder().corrst(chnum=self._chnum,
corr=corr, state=True)` (lines 188–190); `True` renders as code 1. -/
def CorrectionMod.enable_msg (self : CorrectionMod) (corr : Nat) : String :=
  renderCmd "CORRST" [toString self.chnum, toString corr, "1"]

/-- `Correction.disable`: `corrst(..., state=False)` (lines 200–202). -/
def CorrectionMod.disable_msg (self : CorrectionMod) (corr : Nat) : String :=
  renderCmd "CORRST" [toString self.chnum, toString corr, "0"]

/-- `Correction.is_enabled`: `corrst_query(chnum=self._chnum, corr=corr)`
(line 214). -/
def CorrectionMod.is_enabled_msg (self : CorrectionMod) (corr : Nat) :
    String :=
  renderCmd "CORRST?" [toString self.chnum, toString corr]

/-- `Correction.set_reference_values`: `dcorr(chnum=self._chnum, corr=corr,
mode=mode, primary=primary, secondary=secondary)` (lines 246–250). -/
def CorrectionMod.set_reference_values_msg (self : CorrectionMod)
    (corr mode : Nat) (primary secondary : ℚ) : String :=
  renderCmd "DCORR" [toString self.chnum, toString corr, toString mode,
    toString primary, toString secondary]

/-- `Correction._get_reference_values`: `dcorr_query(chnum=self._chnum,
corr=corr)` (line 273). -/
def CorrectionMod.get_reference_values_msg (self : CorrectionMod)
    (corr : Nat) : String :=
  renderCmd "DCORR?" [toString self.chnum, toString corr]

/-- `Correction.perform`: `corr_query(chnum=self._chnum, corr=corr)`
(lines 301–304). -/
def CorrectionMod.perform_msg (self : CorrectionMod) (corr : Nat) : String :=
  renderCmd "CORR?" [toString self.chnum, toString corr]

/-- `FrequencyList._clear`: `clcorr(chnum=self._chnum, mode=mode)`
(line 351), used by `clear` and `clear_and_set_default` with the two
`CLCORR.Mode` codes. -/
def FrequencyListMod.clear_msg (self : FrequencyListMod) (mode : Nat) :
    String :=
  renderCmd "CLCORR" [toString self.chnum, toString mode]

/-- `FrequencyList.add`: `corrl(chnum=self._chnum, freq=freq)` (line 361). -/
def FrequencyListMod.add_msg (self : FrequencyListMod) (freq : ℚ) : String :=
  renderCmd "CORRL" [toString self.chnum, toString freq]

/-- `FrequencyList.query`: `corrl_query(chnum=self._chnum, index=index)`
(lines 372–373); the optional index is appended only when present. -/
def FrequencyListMod.query_msg (self : FrequencyListMod)
    (index : Option Nat) : String :=
  match index with
  | none => renderCmd "CORRL?" [toString self.chnum]
  | some i => renderCmd "CORRL?" [toString self.chnum, toString i]

/-! ## Phase compensation (B1520A) -/

/-- Modelled from the spec: `constants.ADJ.Mode` (in the repository but
not among the sources) — the phase-compensation modes, integer codes
0 = Auto, 1 = Manual, 2 = Load adaptive (also listed in the
`phase_compensation_mode` docstring in the source). -/
inductive AdjMode where
  | auto
  | manual
  | loadAdaptive
  deriving Repr, DecidableEq

/-- Integer code of an `ADJ.Mode` value. -/
def AdjMode.code : AdjMode → Nat
  | .auto => 0
  | .manual => 1
  | .loadAdaptive => 2

/-- Modelled from the spec: the `constants.ADJ.Mode` enumeration
constructor — in-domain integers map to their mode, everything else
raises (`InvalidArgument`, Python `ValueError`), modelled as `none`. -/
def AdjMode.ofInt (n : Int) : Option AdjMode :=
  if n = 0 then some .auto
  else if n = 1 then some .manual
  else if n = 2 then some .loadAdaptive
  else none

/-- `MessageBuilder().adj(chnum, mode)` rendered; modelled from the spec
as mnemonic plus integer-coded arguments. -/
def adj_msg (chnum : Nat) (m : AdjMode) : String :=
  renderCmd "ADJ" [toString chnum, toString m.code]

/-- The parameter-set path of `phase_compensation_mode` (lines 61–64 plus
115–117).  Modelled from the spec: the parameter's
`set_parser = constants.ADJ.Mode` validates the raw value first, and only
a validated value reaches `_set_phase_compensation_mode`, which builds
the `ADJ` command and writes it.  Result: an optional error, paired with
the list of transport writes performed. -/
def set_phase_compensation_mode (chnum : Nat) (raw : Int) :
    Option String × List String :=
  match AdjMode.ofInt raw with
  | none => (some "InvalidArgument", [])
  | some m => (none, [adj_msg chnum m])

/-- `B1520A.phase_compensation_timeout = 60` (line 34), in seconds. -/
def phase_compensation_timeout : ℚ := 60

/-- Digit run to a natural number, `none` when empty or non-digit. -/
def digitsToNat (s : List Char) : Option Nat :=
  if s = [] then none
  else if s.all Char.isDigit then
    some (s.foldl (fun acc c => acc * 10 + (c.toNat - '0'.toNat)) 0)
  else none

/-- Python `int(str)` on a bare signed decimal literal (the only form a
`ADJ?` response takes; whitespace/underscore forms are not modelled).
`none` models the `ValueError` raised on anything else. -/
def pyIntParse (s : List Char) : Option Int :=
  match s with
  | '+' :: rest => (digitsToNat rest).map Int.ofNat
  | '-' :: rest => (digitsToNat rest).map fun n => -(Int.ofNat n)
  | _ => (digitsToNat s).map Int.ofNat

/-- Distinct error kinds surfaced by `phase_compensation` (spec §7):
a transport error/timeout during the query, or a response that fails to
parse as an integer status. -/
inductive ProcError where
  | transport
  | malformed
  deriving Repr, DecidableEq

/-- Outcome of the single `ask` transport exchange inside
`phase_compensation`: the device's raw response string, or a transport
error/timeout raised during the query. -/
inductive AskResult where
  | response (s : List Char)
  | transportError
  deriving Repr, DecidableEq

/-- Driver-side state visible to `phase_compensation`: the root
instrument's transport timeout (seconds) and the most recently set
phase-compensation mode (`none` = never set; the instrument powers up in
Auto). -/
structure B1520AProcState where
  timeout : ℚ
  adj_mode : Option AdjMode
  deriving Repr, DecidableEq

/-- Everything observable about one `phase_compensation` call: the state
after the call, the timeout in effect when the query was dispatched,
whether the `ADJ?` query was dispatched at all, and the returned status
or error. -/
structure PhaseCompRun where
  final : B1520AProcState
  timeout_during_ask : ℚ
  query_sent : Bool
  outcome : Except ProcError Int
  deriving Repr

/-- `B1520A.phase_compensation` (lines 119–153).  The body is
`with self.root_instrument.timeout.set_to(self.phase_compensation_timeout)`
around the `ADJ?` query; `Parameter.set_to` is in the repository but not
among the sources and is modelled from the spec as a scoped override:
save the current value, set the widened value, and restore the saved
value on every exit path of the block (normal exit or exception).  The
`int(response)` conversion happens after the block, i.e. after the
restore, and its failure is surfaced as the malformed-response error.
The phase-compensation mode is not consulted anywhere in the body. -/
def phase_compensation (st : B1520AProcState) (ask : AskResult) :
    PhaseCompRun :=
  let saved := st.timeout
  let widened : B1520AProcState := { st with timeout := phase_compensation_timeout }
  match ask with
  | .transportError =>
    { final := { widened with timeout := saved },
      timeout_during_ask := widened.timeout,
      query_sent := true,
      outcome := .error .transport }
  | .response s =>
    let restored : B1520AProcState := { widened with timeout := saved }
    match pyIntParse s with
    | none =>
      { final := restored, timeout_during_ask := widened.timeout,
        query_sent := true, outcome := .error .malformed }
    | some n =>
      { final := restored, timeout_during_ask := widened.timeout,
        query_sent := true, outcome := .ok n }

/-! ## Correction lifecycle (device-side state machine) -/

/-- Modelled from the spec: the device-side correction lifecycle states
(§4.5) for one correction type.  The driver only issues `DCORR`/`CORR?`/
`CORRST` commands; the lifecycle itself is instrument-held state, not in
the sources. -/
inductive CorrState where
  | undefined
  | referenceSet
  | measured
  | enabled
  deriving Repr, DecidableEq

/-- Modelled from the spec (§4.5): `set_reference_values` (the `DCORR`
command) disables the correction and invalidates prior measurement,
moving any state back to `ReferenceSet`. -/
def corr_set_reference_values : CorrState → CorrState :=
  fun _ => .referenceSet

/-- Modelled from the spec (§4.5): `perform` (the `CORR?` command)
requires the reference to exist and transitions to `Measured`. -/
def corr_perform : CorrState → Option CorrState
  | .undefined => none
  | _ => some .measured

/-- Modelled from the spec (§4.5, §8): `enable` toggles
`Measured ⇄ Enabled`; with no measurement it fails. -/
def corr_enable : CorrState → Option CorrState
  | .measured => some .enabled
  | .enabled => some .enabled
  | _ => none

/-- Modelled from the spec (§4.5): `disable` toggles back to `Measured`;
with no measurement it fails. -/
def corr_disable : CorrState → Option CorrState
  | .measured => some .measured
  | .enabled => some .measured
  | _ => none

/-- Modelled from the spec (§4.5): the enabled-state query is
side-effect-free and valid from any state; it reports enabled exactly in
the `Enabled` state ("not enabled if not yet measured"). -/
def corr_is_enabled (s : CorrState) : Bool :=
  s = .enabled

/-- The driver-visible correction operations (`Correction` methods that
touch the lifecycle). -/
inductive CorrOp where
  | setReferenceValues
  | perform
  | enable
  | disable
  deriving Repr, DecidableEq

/-- One lifecycle step.  A failing command leaves the device state
exactly as it was (spec §7: an error aborts the operation at that step
with no partial transition). -/
def corrStep (s : CorrState) : CorrOp → CorrState
  | .setReferenceValues => corr_set_reference_values s
  | .perform => (corr_perform s).getD s
  | .enable => (corr_enable s).getD s
  | .disable => (corr_disable s).getD s

/-- Run a sequence of correction operations from a state. -/
def corrRun (s : CorrState) (ops : List CorrOp) : CorrState :=
  ops.foldl corrStep s

/-! ## Galil DMC-41x3 transport (`dmc_41x3.py`) -/

/-- `GalilInstrument.write_raw` (lines 53–57): the string handed to
`gclib`'s `GCommand` is the caller's command with a carriage return
appended. -/
def galil_write_raw (cmd : List Char) : List Char :=
  cmd ++ ['\r']

/-- `GalilInstrument.ask_raw` (lines 59–63): same dispatch string as
`write_raw`; the device's reply is returned to the caller. -/
def galil_ask_raw (cmd : List Char) : List Char :=
  cmd ++ ['\r']

/-- Result of one `GalilInstrument.timeout` call: whether the
`RuntimeError` was raised, the device timeout (milliseconds) after the
call, and the arguments of the `GTimeout` transport calls made. -/
structure GalilTimeoutOutcome where
  raised : Bool
  timeout_ms : ℚ
  gtimeout_calls : List ℚ
  deriving Repr, DecidableEq

/-- `GalilInstrument.timeout` (lines 65–75): values below 0.001 s raise
`RuntimeError("Timeout can not be less than 0.001s")` before any
transport call; otherwise `GTimeout(val*1000)` sets the device timeout in
milliseconds. -/
def galil_timeout (cur_ms : ℚ) (val : ℚ) : GalilTimeoutOutcome :=
  if val < 1 / 1000 then
    { raised := true, timeout_ms := cur_ms, gtimeout_calls := [] }
  else
    { raised := false, timeout_ms := val * 1000,
      gtimeout_calls := [val * 1000] }

/-! ## Helper lemmas -/

theorem matchValue_rest_lt {s v r : List Char}
    (h : matchValue s = some (v, r)) : r.length < s.length := by
  match s with
  | [] => simp [matchValue] at h
  | c :: rest =>
    simp only [matchValue] at h
    split at h
    case isFalse => exact absurd h (by simp)
    split at h
    case isFalse => exact absurd h (by simp)
    split at h
    case h_2 => exact absurd h (by simp)
    case h_1 x r2 heq =>
    split at h
    case isFalse => exact absurd h (by simp)
    split at h
    case isFalse => exact absurd h (by simp)
    split at h
    case h_2 => exact absurd h (by simp)
    case h_1 y e a b r4 heq2 =>
    split at h
    case isFalse => exact absurd h (by simp)
    injection h with h1
    injection h1 with _ h2
    subst h2
    have h5 : (x :: r2).length ≤ rest.length := by
      rw [← heq]
      exact (rest.dropWhile_sublist _).length_le
    have h6 : (y :: e :: a :: b :: r4).length ≤ r2.length := by
      rw [← heq2]
      exact (r2.dropWhile_sublist _).length_le
    simp only [List.length_cons] at h5 h6 ⊢
    omega

theorem matchNoPrefix_rest_lt {s : List Char} {f : Field} {r : List Char}
    (h : matchNoPrefix s = some (f, r)) : r.length < s.length := by
  simp only [matchNoPrefix] at h
  split at h
  next v r' heq =>
    injection h with h1
    injection h1 with _ h2
    subst h2
    exact matchValue_rest_lt heq
  next => exact absurd h (by simp)

theorem matchFieldAt_rest_lt {s : List Char} {f : Field} {r : List Char}
    (h : matchFieldAt s = some (f, r)) : r.length < s.length := by
  match s with
  | a :: b :: c :: rest =>
    simp only [matchFieldAt] at h
    split at h
    · split at h
      next v r' heq =>
        injection h with h1
        injection h1 with _ h2
        subst h2
        have := matchValue_rest_lt heq
        simp only [List.length_cons]
        omega
      next => exact matchNoPrefix_rest_lt h
    · exact matchNoPrefix_rest_lt h
  | [] => exact matchNoPrefix_rest_lt h
  | [a] => exact matchNoPrefix_rest_lt h
  | [a, b] => exact matchNoPrefix_rest_lt h

theorem findIterAux_fuel_irrel (f1 : Nat) :
    ∀ (f2 : Nat) (s : List Char), s.length ≤ f1 → s.length ≤ f2 →
      findIterAux f1 s = findIterAux f2 s := by
  induction f1 with
  | zero =>
    intro f2 s h1 _
    have hs : s = [] := by
      cases s with
      | nil => rfl
      | cons a t => simp at h1
    subst hs
    cases f2 <;> rfl
  | succ n ih =>
    intro f2 s h1 h2
    match s with
    | [] => cases f2 <;> rfl
    | a :: rest =>
      match f2 with
      | 0 => simp at h2
      | m + 1 =>
        simp only [List.length_cons] at h1 h2
        show (match matchFieldAt (a :: rest) with
          | some (f, r) => f :: findIterAux n r
          | none => findIterAux n rest) =
          (match matchFieldAt (a :: rest) with
          | some (f, r) => f :: findIterAux m r
          | none => findIterAux m rest)
        cases hm : matchFieldAt (a :: rest) with
        | some fr =>
          obtain ⟨f, r⟩ := fr
          have hlt := matchFieldAt_rest_lt hm
          simp only [List.length_cons] at hlt
          simp only [ih m r (by omega) (by omega)]
        | none =>
          simp only [ih m rest (by omega) (by omega)]

theorem findIterAux_stable (fuel : Nat) (s : List Char)
    (h : s.length ≤ fuel) : findIterAux fuel s = findIter s :=
  findIterAux_fuel_irrel fuel s.length s h le_rfl

/-! ## Claim theorems -/

/-- C1: For every raw response string passed through the capacitance
query (`B1520A._get_capacitance`), decoding succeeds if and only if the
pattern-matcher extracts exactly two fields, field 0 carrying data-type
tag `'C'` and field 1 tag `'Y'`; in every other case the operation fails
with the malformed-response error (`none`, no partial result); on success
it returns the two numeric payloads in positional order. -/
theorem get_capacitance_decode_characterization (response : List Char) :
    ((get_capacitance_parse response).isSome ↔
      ∃ f0 f1, findIter response = [f0, f1] ∧
        f0.dtype = some 'C' ∧ f1.dtype = some 'Y') ∧
    (∀ v0 v1, get_capacitance_parse response = some (v0, v1) →
      ∃ f0 f1, findIter response = [f0, f1] ∧ f0.dtype = some 'C' ∧
        f1.dtype = some 'Y' ∧ f0.value = v0 ∧ f1.value = v1) := by
  rcases h : findIter response with _ | ⟨p0, _ | ⟨p1, _ | ⟨p2, t⟩⟩⟩
  · simp [get_capacitance_parse, h]
  · simp [get_capacitance_parse, h]
  · by_cases hc : p0.dtype = some 'C' ∧ p1.dtype = some 'Y'
    · constructor
      · simp only [get_capacitance_parse, h, hc.1, hc.2]
        simp only [ne_eq, not_true_eq_false, or_self, ite_false,
          Option.isSome_some, true_iff]
        exact ⟨p0, p1, rfl, hc.1, hc.2⟩
      · intro v0 v1 hv
        refine ⟨p0, p1, rfl, hc.1, hc.2, ?_, ?_⟩ <;>
          · simp only [get_capacitance_parse, h, hc.1, hc.2] at hv
            simp only [ne_eq, not_true_eq_false, or_self, ite_false,
              Option.some.injEq, Prod.mk.injEq] at hv
            simp [hv.1, hv.2]
    · constructor
      · constructor
        · intro hs
          simp only [get_capacitance_parse, h] at hs
          rcases Decidable.not_and_iff_or_not.mp hc with hc' | hc' <;>
            simp [hc'] at hs
        · rintro ⟨f0, f1, hf, h0, h1⟩
          injection hf with e0 hf'
          injection hf' with e1
          subst e0; subst e1
          exact absurd ⟨h0, h1⟩ hc
      · intro v0 v1 hv
        simp only [get_capacitance_parse, h] at hv
        rcases Decidable.not_and_iff_or_not.mp hc with hc' | hc' <;>
          simp [hc'] at hv
  · simp [get_capacitance_parse, h]

/-- Witness for C1 at the spec's §8 example response: decoding yields the
two payloads `+001.234000E-03` (tag `'C'`) and `+005.678000E-06`
(tag `'Y'`) in positional order. -/
theorem get_capacitance_decode_witness :
    ∃ f0 f1, findIter capacitanceExample = [f0, f1] ∧
      f0.dtype = some 'C' ∧ f1.dtype = some 'Y' ∧
      f0.value = "+001.234000E-03".data ∧
      f1.value = "+005.678000E-06".data :=
  (get_capacitance_decode_characterization capacitanceExample).2
    "+001.234000E-03".data "+005.678000E-06".data (by decide)

theorem sign_not_word {c : Char} (h : isSign c = true) :
    isWordChar c = false := by
  simp only [isSign, Bool.or_eq_true, beq_iff_eq] at h
  rcases h with h | h <;> subst h <;> rfl

theorem word_not_sign {c : Char} (h : isWordChar c = true) :
    isSign c = false := by
  cases hs : isSign c with
  | false => rfl
  | true => exact absurd (sign_not_word hs) (by simp [h])

theorem valueFullMatch_eq_amended (s : List Char) :
    valueFullMatch s = amendedPayloadShape s := by
  match s with
  | [] => rfl
  | c :: rest =>
    simp only [valueFullMatch, matchValue, amendedPayloadShape]
    by_cases hs : isSign c = true
    case neg => simp [hs]
    simp only [hs, if_true]
    by_cases h1 : 1 ≤ (rest.takeWhile Char.isDigit).length ∧
        (rest.takeWhile Char.isDigit).length ≤ 3
    case neg => simp [h1]
    simp only [h1, if_true]
    rcases hr1 : rest.dropWhile Char.isDigit with _ | ⟨x, r2⟩
    · simp
    simp only []
    by_cases hx : x = '.'
    case neg => simp [hx]
    simp only [hx, if_true]
    by_cases h2 : 3 ≤ (r2.takeWhile Char.isDigit).length ∧
        (r2.takeWhile Char.isDigit).length ≤ 6
    case neg => simp [h2]
    simp only [h2, if_true]
    rcases hr3 : r2.dropWhile Char.isDigit with _ | ⟨y, _ | ⟨e, _ | ⟨a, _ | ⟨b, r4⟩⟩⟩⟩
    · simp
    · simp
    · simp
    · simp
    rcases r4 with _ | ⟨z, r5⟩
    · by_cases hg : y = 'E' ∧ (isSign e = true ∧ (a.isDigit = true ∧ b.isDigit = true))
      · simp [hg]
      · simp [hg]
    · by_cases hg : y = 'E' ∧ (isSign e = true ∧ (a.isDigit = true ∧ b.isDigit = true))
      · simp [hg]
      · simp [hg]

theorem matchNoPrefix_full (s : List Char) :
    (match matchNoPrefix s with
      | some (_, []) => true
      | _ => false) = valueFullMatch s := by
  simp only [matchNoPrefix, valueFullMatch]
  rcases hv : matchValue s with _ | ⟨v, r⟩
  · rfl
  · cases r <;> rfl

/-- C2 counterexample: the string `"+1.234E+01"` has a single digit before
the decimal point, so its numeric payload deviates from the spec's
`<sign><3digits>.<3-6digits>E<sign><2digits>` shape; yet the field matcher
accepts it as one full response field.  This refutes the claim that the
matcher accepts a string exactly when it has the spec's shape. -/
theorem field_accepts_counterexample :
    field_accepts "+1.234E+01".data = true ∧
    specFieldShape "+1.234E+01".data = false := by
  decide

/-- C2 (amended): a string is accepted as one response field exactly when
it matches the wire format with an optional three-character word prefix
and a numeric payload of a sign, *one to three* digits (the source's
`\d{1,3}`, not exactly three), a decimal point, three to six digits, `E`,
a sign, and exactly two digits. -/
theorem field_accepts_iff_wire_format (s : List Char) :
    field_accepts s = amendedFieldShape s := by
  match s with
  | [] => rfl
  | [a] =>
    show (match matchNoPrefix [a] with
      | some (_, []) => true
      | _ => false) = amendedFieldShape [a]
    rw [matchNoPrefix_full, valueFullMatch_eq_amended]
    simp [amendedFieldShape]
  | [a, b] =>
    show (match matchNoPrefix [a, b] with
      | some (_, []) => true
      | _ => false) = amendedFieldShape [a, b]
    rw [matchNoPrefix_full, valueFullMatch_eq_amended]
    simp [amendedFieldShape]
  | a :: b :: c :: rest =>
    by_cases hw : isWordChar a = true ∧ isWordChar b = true ∧ isWordChar c = true
    · have hsa : isSign a = false := word_not_sign hw.1
      have hps : amendedPayloadShape (a :: b :: c :: rest) = false := by
        simp [amendedPayloadShape, hsa]
      rcases hv : matchValue rest with _ | ⟨v, r⟩
      · have hfa : matchFieldAt (a :: b :: c :: rest) =
            matchNoPrefix (a :: b :: c :: rest) := by
          simp [matchFieldAt, hw, hv]
        show (match matchFieldAt (a :: b :: c :: rest) with
          | some (_, []) => true
          | _ => false) = amendedFieldShape (a :: b :: c :: rest)
        rw [hfa, matchNoPrefix_full, valueFullMatch_eq_amended, hps]
        have hvfm : valueFullMatch rest = false := by
          simp [valueFullMatch, hv]
        rw [valueFullMatch_eq_amended] at hvfm
        simp [amendedFieldShape, hps, hvfm]
      · have hfa : matchFieldAt (a :: b :: c :: rest) =
            some (⟨some a, some b, some c, v⟩, r) := by
          simp [matchFieldAt, hw, hv]
        have hvfm : valueFullMatch rest =
            (match (some (v, r) : Option (List Char × List Char)) with
              | some (_, []) => true
              | _ => false) := by
          simp [valueFullMatch, hv]
        show (match matchFieldAt (a :: b :: c :: rest) with
          | some (_, []) => true
          | _ => false) = amendedFieldShape (a :: b :: c :: rest)
        rw [hfa]
        rw [valueFullMatch_eq_amended] at hvfm
        simp only [amendedFieldShape, hps, hw.1, hw.2.1, hw.2.2,
          Bool.true_and, Bool.false_or]
        rw [hvfm]
        cases r <;> rfl
    · have hfa : matchFieldAt (a :: b :: c :: rest) =
          matchNoPrefix (a :: b :: c :: rest) := by
        simp only [matchFieldAt]
        rw [if_neg hw]
      have hw' : (isWordChar a && isWordChar b && isWordChar c) = false := by
        rcases Decidable.not_and_iff_or_not.mp hw with h | h
        · simp [h]
        · rcases Decidable.not_and_iff_or_not.mp h with h' | h'
          · simp [h']
          · simp [h']
      show (match matchFieldAt (a :: b :: c :: rest) with
        | some (_, []) => true
        | _ => false) = amendedFieldShape (a :: b :: c :: rest)
      rw [hfa, matchNoPrefix_full, valueFullMatch_eq_amended]
      simp only [amendedFieldShape]
      rcases Decidable.not_and_iff_or_not.mp hw with h | h
      · simp [h]
      · rcases Decidable.not_and_iff_or_not.mp h with h' | h'
        · simp [h']
        · simp [h']

/-- C3: For every call to `B1520A.phase_compensation`, on every exit
path — normal return, parse failure of the response, or transport
error/timeout raised during the query — the transport timeout after the
call equals its value immediately before the call, and the widened value
(`phase_compensation_timeout`) is in effect exactly inside the scoped
block (here: at the `ask`). -/
theorem phase_compensation_timeout_restored (st : B1520AProcState)
    (ask : AskResult) :
    (phase_compensation st ask).final.timeout = st.timeout ∧
    (phase_compensation st ask).timeout_during_ask =
      phase_compensation_timeout := by
  cases ask with
  | transportError => exact ⟨rfl, rfl⟩
  | response s =>
    simp only [phase_compensation]
    cases pyIntParse s <;> exact ⟨rfl, rfl⟩

/-- C4 counterexample: with the phase-compensation mode set to `Auto`
(and likewise with no mode ever set), `phase_compensation` still
dispatches the `ADJ?` query and returns the parsed result — it is carried
out, not rejected.  This refutes the claim that an invocation in Auto
mode (or with no prior mode-set) is rejected. -/
theorem phase_compensation_auto_mode_executes :
    (phase_compensation ⟨25, some .auto⟩ (.response "0".data)).query_sent
        = true ∧
    (phase_compensation ⟨25, some .auto⟩ (.response "0".data)).outcome
        = .ok 0 ∧
    (phase_compensation ⟨25, none⟩ (.response "0".data)).query_sent
        = true ∧
    (phase_compensation ⟨25, none⟩ (.response "0".data)).outcome
        = .ok 0 :=
  ⟨rfl, rfl, rfl, rfl⟩

/-- C4 (amended): the driver does not check the phase-compensation mode:
`phase_compensation` dispatches the `ADJ?` query and produces the same
outcome and final timeout whatever the mode (Auto, Manual, LoadAdaptive,
or never set).  The Manual/LoadAdaptive precondition is documented
operator guidance, not enforced by the driver. -/
theorem phase_compensation_mode_not_checked (t : ℚ)
    (m1 m2 : Option AdjMode) (ask : AskResult) :
    (phase_compensation ⟨t, m1⟩ ask).query_sent = true ∧
    (phase_compensation ⟨t, m1⟩ ask).outcome =
      (phase_compensation ⟨t, m2⟩ ask).outcome ∧
    (phase_compensation ⟨t, m1⟩ ask).final.timeout =
      (phase_compensation ⟨t, m2⟩ ask).final.timeout := by
  cases ask with
  | transportError => exact ⟨rfl, rfl, rfl⟩
  | response s =>
    simp only [phase_compensation]
    cases pyIntParse s <;> exact ⟨rfl, rfl, rfl⟩

/-- C5: For every `B1520A` instance, every operation of its `Correction`
submodule and of the nested `FrequencyList` submodule renders the parent
module's channel (`parent.channels[0]`) into the outgoing command string;
the submodules never use an independently chosen channel, and the channel
tuple is fixed at construction. -/
theorem submodule_channel_threading (slot corr mode idx : Nat)
    (freq primary secondary : ℚ) :
    (mkB1520A slot).channels = [ChNr slot] ∧
    (mkCorrection (mkB1520A slot)).chnum = ChNr slot ∧
    (mkCorrection (mkB1520A slot)).frequency_list.chnum = ChNr slot ∧
    (mkCorrection (mkB1520A slot)).enable_msg corr =
      renderCmd "CORRST" [toString (ChNr slot), toString corr, "1"] ∧
    (mkCorrection (mkB1520A slot)).disable_msg corr =
      renderCmd "CORRST" [toString (ChNr slot), toString corr, "0"] ∧
    (mkCorrection (mkB1520A slot)).is_enabled_msg corr =
      renderCmd "CORRST?" [toString (ChNr slot), toString corr] ∧
    (mkCorrection (mkB1520A slot)).set_reference_values_msg corr mode
        primary secondary =
      renderCmd "DCORR" [toString (ChNr slot), toString corr,
        toString mode, toString primary, toString secondary] ∧
    (mkCorrection (mkB1520A slot)).get_reference_values_msg corr =
      renderCmd "DCORR?" [toString (ChNr slot), toString corr] ∧
    (mkCorrection (mkB1520A slot)).perform_msg corr =
      renderCmd "CORR?" [toString (ChNr slot), toString corr] ∧
    (mkCorrection (mkB1520A slot)).frequency_list.clear_msg mode =
      renderCmd "CLCORR" [toString (ChNr slot), toString mode] ∧
    (mkCorrection (mkB1520A slot)).frequency_list.add_msg freq =
      renderCmd "CORRL" [toString (ChNr slot), toString freq] ∧
    (mkCorrection (mkB1520A slot)).frequency_list.query_msg none =
      renderCmd "CORRL?" [toString (ChNr slot)] ∧
    (mkCorrection (mkB1520A slot)).frequency_list.query_msg (some idx) =
      renderCmd "CORRL?" [toString (ChNr slot), toString idx] :=
  ⟨rfl, rfl, rfl, rfl, rfl, rfl, rfl, rfl, rfl, rfl, rfl, rfl, rfl⟩

theorem corrRun_referenceSet_no_perform (ops : List CorrOp)
    (h : CorrOp.perform ∉ ops) :
    corrRun CorrState.referenceSet ops = CorrState.referenceSet := by
  induction ops with
  | nil => rfl
  | cons op t ih =>
    have hop : op ≠ CorrOp.perform := fun he => h (by simp [he])
    have ht : CorrOp.perform ∉ t := fun he => h (List.mem_cons_of_mem _ he)
    have hstep : corrStep CorrState.referenceSet op =
        CorrState.referenceSet := by
      cases op with
      | setReferenceValues => rfl
      | perform => exact absurd rfl hop
      | enable => rfl
      | disable => rfl
    show corrRun (corrStep CorrState.referenceSet op) t =
      CorrState.referenceSet
    rw [hstep]
    exact ih ht

/-- C6: For every correction type, calling
`Correction.set_reference_values` from any lifecycle state moves the
correction state back to `ReferenceSet`, disabling the correction, so
that `is_enabled` reports not-enabled until `perform` is called again:
after the reset, any operation sequence that does not contain a `perform`
leaves `is_enabled` false. -/
theorem set_reference_values_resets (s : CorrState) (ops : List CorrOp)
    (h : CorrOp.perform ∉ ops) :
    corr_set_reference_values s = CorrState.referenceSet ∧
    corr_is_enabled (corr_set_reference_values s) = false ∧
    corr_is_enabled (corrRun (corr_set_reference_values s) ops) = false := by
  refine ⟨rfl, rfl, ?_⟩
  show corr_is_enabled (corrRun CorrState.referenceSet ops) = false
  rw [corrRun_referenceSet_no_perform ops h]
  rfl

/-- Witness for C6: resetting from `Enabled` and then trying
`enable`/`disable` without a new `perform` leaves `is_enabled` false. -/
theorem set_reference_values_resets_witness :
    CorrOp.perform ∉ [CorrOp.enable, CorrOp.disable] ∧
    corr_is_enabled (corrRun (corr_set_reference_values CorrState.enabled)
      [CorrOp.enable, CorrOp.disable]) = false :=
  ⟨by decide, (set_reference_values_resets CorrState.enabled
    [CorrOp.enable, CorrOp.disable] (by decide)).2.2⟩

theorem corrRun_no_perform_not_measured (ops : List CorrOp) :
    ∀ s, CorrOp.perform ∉ ops →
      (s = CorrState.undefined ∨ s = CorrState.referenceSet) →
      (corrRun s ops = CorrState.undefined ∨
        corrRun s ops = CorrState.referenceSet) := by
  induction ops with
  | nil => intro s _ hs; exact hs
  | cons op t ih =>
    intro s h hs
    have hop : op ≠ CorrOp.perform := fun he => h (by simp [he])
    have ht : CorrOp.perform ∉ t := fun he => h (List.mem_cons_of_mem _ he)
    have hstep : corrStep s op = CorrState.undefined ∨
        corrStep s op = CorrState.referenceSet := by
      rcases hs with hs | hs <;> subst hs <;> cases op
      case inl.setReferenceValues => exact Or.inr rfl
      case inl.perform => exact absurd rfl hop
      case inl.enable => exact Or.inl rfl
      case inl.disable => exact Or.inl rfl
      case inr.setReferenceValues => exact Or.inr rfl
      case inr.perform => exact absurd rfl hop
      case inr.enable => exact Or.inr rfl
      case inr.disable => exact Or.inr rfl
    exact ih (corrStep s op) ht hstep

/-- C7: For every correction type, calling `Correction.enable` before any
`perform` has been executed fails, and a subsequent `is_enabled` query
reports false: after any operation sequence from the initial state that
contains no `perform`, `enable` fails and the state remains
not-enabled. -/
theorem enable_before_perform (ops : List CorrOp)
    (h : CorrOp.perform ∉ ops) :
    corr_enable (corrRun CorrState.undefined ops) = none ∧
    corr_is_enabled
      (corrStep (corrRun CorrState.undefined ops) CorrOp.enable) = false := by
  rcases corrRun_no_perform_not_measured ops CorrState.undefined h
    (Or.inl rfl) with he | he <;> rw [he] <;> exact ⟨rfl, rfl⟩

/-- Witness for C7: with only a reference set (no `perform`), `enable`
fails and `is_enabled` stays false. -/
theorem enable_before_perform_witness :
    CorrOp.perform ∉ [CorrOp.setReferenceValues] ∧
    corr_enable (corrRun CorrState.undefined [CorrOp.setReferenceValues])
        = none ∧
    corr_is_enabled (corrStep
      (corrRun CorrState.undefined [CorrOp.setReferenceValues])
      CorrOp.enable) = false := by
  refine ⟨by decide, ?_, ?_⟩
  · exact (enable_before_perform [CorrOp.setReferenceValues] (by decide)).1
  · exact (enable_before_perform [CorrOp.setReferenceValues] (by decide)).2

/-- C8: For an enumerated argument value outside its declared set (a
phase-compensation mode not in `ADJ.Mode`, i.e. not 0, 1 or 2), building
the command fails with the invalid-argument error before any transport
write occurs: the performed transport-write list is empty. -/
theorem invalid_mode_no_transport (chnum : Nat) (raw : Int)
    (h : raw ≠ 0 ∧ raw ≠ 1 ∧ raw ≠ 2) :
    set_phase_compensation_mode chnum raw = (some "InvalidArgument", []) ∧
    AdjMode.ofInt raw = none := by
  have hn : AdjMode.ofInt raw = none := by
    simp [AdjMode.ofInt, h.1, h.2.1, h.2.2]
  exact ⟨by simp [set_phase_compensation_mode, hn], hn⟩

/-- Witness for C8 at mode value 7 on channel 3. -/
theorem invalid_mode_no_transport_witness :
    ((7 : Int) ≠ 0 ∧ (7 : Int) ≠ 1 ∧ (7 : Int) ≠ 2) ∧
    set_phase_compensation_mode 3 7 = (some "InvalidArgument", []) :=
  ⟨by decide, (invalid_mode_no_transport 3 7 (by decide)).1⟩

/-- C9: For every command string sent through the Galil transport layer,
both `write_raw` and `ask_raw` append exactly one carriage-return
terminator to the caller's command string before dispatch; for the
driver's CR-free commands the realized message carries exactly one
terminator. -/
theorem galil_terminator (cmd : List Char) :
    galil_write_raw cmd = cmd ++ ['\r'] ∧
    galil_ask_raw cmd = cmd ++ ['\r'] ∧
    (galil_write_raw cmd).count '\r' = cmd.count '\r' + 1 ∧
    (galil_ask_raw cmd).count '\r' = cmd.count '\r' + 1 ∧
    ('\r' ∉ cmd →
      (galil_write_raw cmd).count '\r' = 1 ∧
      (galil_ask_raw cmd).count '\r' = 1) := by
  refine ⟨rfl, rfl, ?_, ?_, ?_⟩
  · simp [galil_write_raw]
  · simp [galil_ask_raw]
  · intro h
    have h0 : cmd.count '\r' = 0 := List.count_eq_zero.mpr h
    constructor <;> simp [galil_write_raw, galil_ask_raw, h0]

/-- Witness for C9 on the driver's `"ST"` (stop) command. -/
theorem galil_terminator_witness :
    '\r' ∉ "ST".data ∧
    (galil_write_raw "ST".data).count '\r' = 1 ∧
    (galil_ask_raw "ST".data).count '\r' = 1 := by
  refine ⟨by decide, ?_, ?_⟩
  · exact ((galil_terminator "ST".data).2.2.2.2 (by decide)).1
  · exact ((galil_terminator "ST".data).2.2.2.2 (by decide)).2

/-- C10: For every value `val` passed to `GalilInstrument.timeout`:
below 0.001 s the call raises `RuntimeError`, the device timeout is left
unchanged and no transport call is made; at or above 0.001 s the device
timeout is set to `val * 1000` milliseconds by exactly one `GTimeout`
call, and the seconds-to-milliseconds conversion is exact (dividing back
by 1000 recovers `val`; floats are modelled as exact rationals). -/
theorem galil_timeout_spec (cur val : ℚ) :
    (val < 1 / 1000 →
      galil_timeout cur val =
        { raised := true, timeout_ms := cur, gtimeout_calls := [] }) ∧
    (¬ val < 1 / 1000 →
      galil_timeout cur val =
        { raised := false, timeout_ms := val * 1000,
          gtimeout_calls := [val * 1000] } ∧
      val * 1000 / 1000 = val) := by
  constructor
  · intro h
    rw [galil_timeout, if_pos h]
  · intro h
    refine ⟨by rw [galil_timeout, if_neg h], ?_⟩
    exact mul_div_cancel_right₀ val (by norm_num)

/-- Witness for C10: `0.0005` s raises and leaves the timeout unchanged;
`0.5` s sets the device timeout to exactly `500` ms. -/
theorem galil_timeout_spec_witness :
    ((1 / 2000 : ℚ) < 1 / 1000 ∧
      galil_timeout 7000 (1 / 2000) =
        { raised := true, timeout_ms := 7000, gtimeout_calls := [] }) ∧
    (¬ (1 / 2 : ℚ) < 1 / 1000 ∧
      galil_timeout 7000 (1 / 2) =
        { raised := false, timeout_ms := 500, gtimeout_calls := [500] }) := by
  constructor
  · exact ⟨by norm_num, (galil_timeout_spec 7000 (1 / 2000)).1 (by norm_num)⟩
  · refine ⟨by norm_num, ?_⟩
    have h := ((galil_timeout_spec 7000 (1 / 2)).2 (by norm_num)).1
    rw [h]
    norm_num

end QcodesSpec
